import Mathlib

/-!
Shallow embedding of the API Quota & Cache Manager subsystem of the
media-bias-dashboard repository (files `src/apis/api_manager.py`,
`src/apis/base_api.py`, `src/apis/wikipedia_api.py`,
`src/apis/youtube_api.py`, configuration in `src/config.py`).

Conventions of the embedding:
* Python unbounded integers are `Nat` (the counters only ever start at 0 and
  are incremented) or `Int` where a signed ordinal is natural.
* Python floats (`warning_threshold`, `stop_threshold`, percentages) are
  modelled as rationals `ℚ`; at every concrete value appearing in the claims
  the binary-float computation of the source and the rational computation
  agree exactly.
* Calendar dates and hour-truncated timestamps are modelled as integer
  ordinals (`Int`) with their linear order; `date.today()` and
  `datetime.now().replace(minute=0, second=0, microsecond=0)` become explicit
  parameters `today` and `currentHour`.
* The durable files are modelled by `DiskFile`: missing, present but failing
  deserialization, or storing a value.  Write success or failure of the file
  system is an explicit boolean parameter `io`.
* Logging is modelled by the list of levels of the messages emitted.
* Fallible Python code returns `Except`; a total Lean function models Python
  code that cannot raise.
-/

/-- Python values as they occur in cache entries and API results:
`None`, booleans, ints, floats (as rationals), strings and dicts. -/
inductive PyVal where
  | none
  | bool (b : Bool)
  | int (n : Int)
  | rat (q : ℚ)
  | str (s : String)
  | dict (entries : List (String × PyVal))

/-- A Python dict with string keys, as an association list in insertion
order (Python dicts preserve insertion order; assignment to an existing key
keeps its position). -/
abbrev PyDict := List (String × PyVal)

/-- Python `d[k] = v`: replace in place if the key exists, else append. -/
def dictSet {α : Type} : List (String × α) → String → α → List (String × α)
  | [], k, v => [(k, v)]
  | (k', v') :: rest, k, v =>
      if k' = k then (k, v) :: rest else (k', v') :: dictSet rest k v

/-- Python `d.get(k)`: the stored value, or `none` when the key is absent. -/
def dictGet {α : Type} : List (String × α) → String → Option α
  | [], _ => Option.none
  | (k', v') :: rest, k => if k' = k then Option.some v' else dictGet rest k

/-- Python `k in d`. -/
def dictContains {α : Type} (d : List (String × α)) (k : String) : Bool :=
  (dictGet d k).isSome

/-- Python `d.update(other)`: assign every entry of `other` in order. -/
def dictUpdate {α : Type} (d other : List (String × α)) : List (String × α) :=
  other.foldl (fun acc kv => dictSet acc kv.1 kv.2) d

/-- Python truthiness for the embedded values. -/
def pyTruthy : PyVal → Bool
  | .none => false
  | .bool b => b
  | .int n => n ≠ 0
  | .rat q => q ≠ 0
  | .str s => s ≠ ""
  | .dict l => !l.isEmpty

/-- Level of a log message emitted through the `logging` module. -/
inductive LogLevel where
  | debug | info | warning | error
deriving DecidableEq, Repr

/-- State of a durable file: absent, present but failing deserialization
(`pickle.load` raises), or storing a deserializable value. -/
inductive DiskFile (α : Type) where
  | missing
  | corrupt
  | stored (a : α)

/-- The persistent quota ledger kept in `APIManager.quota_data`
(`api_manager.py` lines 95-103): daily units used, the daily reset date,
calls this hour, the hour-truncated reset boundary, and the lifetime call
count.  Dates and hour boundaries are integer ordinals. -/
structure QuotaData where
  daily_quota_used : Nat
  daily_reset_date : Int
  hourly_calls : Nat
  hourly_reset_time : Int
  total_api_calls : Nat
deriving DecidableEq, Repr

/-- The in-memory state of one `APIManager` instance: configuration read at
construction plus the mutable ledger, cache and session counter
(`api_manager.py` lines 39-64). -/
structure ManagerState where
  api_name : String
  daily_quota_limit : Option Nat
  hourly_limit : Nat
  warning_threshold : ℚ
  stop_threshold : ℚ
  quota_data : QuotaData
  cache_data : PyDict
  session_api_calls : Nat

/-- Default ledger built by `_load_quota_data` when no file is readable
(`api_manager.py` lines 95-103): all counters zero, the daily reset date set
to today and the hourly boundary set to the current hour. -/
def defaultQuotaData (today currentHour : Int) : QuotaData :=
  { daily_quota_used := 0
    daily_reset_date := today
    hourly_calls := 0
    hourly_reset_time := currentHour
    total_api_calls := 0 }

/-- `APIManager._load_quota_data` (`api_manager.py` lines 83-103): if the
quota file exists and deserializes, return its contents (with a debug log);
if it is missing, fall through silently to the default ledger; if reading
or deserialization raises, log a warning and return the default ledger.
The function never raises. -/
def loadQuotaData (file : DiskFile QuotaData) (today currentHour : Int) :
    QuotaData × List LogLevel :=
  match file with
  | .stored d => (d, [.debug])
  | .missing => (defaultQuotaData today currentHour, [])
  | .corrupt => (defaultQuotaData today currentHour, [.warning])

/-- `APIManager._load_cache_from_disk` (`api_manager.py` lines 145-155):
if the cache file exists and deserializes, return its contents (with a
debug log); if it is missing, fall through silently to the empty dict; if
reading or deserialization raises, log a warning and return the empty dict.
The function never raises. -/
def loadCacheFromDisk (file : DiskFile PyDict) : PyDict × List LogLevel :=
  match file with
  | .stored d => (d, [.debug])
  | .missing => ([], [])
  | .corrupt => ([], [.warning])

/-- `APIManager._save_quota_data` (`api_manager.py` lines 105-112): attempt
to overwrite the quota file with the current ledger; on success log a debug
message, on any exception log an error; in both cases return normally, the
in-memory ledger untouched. -/
def saveQuotaData (q : QuotaData) (disk : DiskFile QuotaData) (io : Bool) :
    DiskFile QuotaData × List LogLevel :=
  if io then (.stored q, [.debug]) else (disk, [.error])

/-- `APIManager.save_cache_to_disk` (`api_manager.py` lines 169-178):
attempt to overwrite the cache file with the whole in-memory cache; on
success log a debug message, on any exception log an error; in both cases
return normally.  The in-memory state of the manager is returned unchanged
to make the absence of mutation explicit. -/
def saveCacheToDisk (m : ManagerState) (disk : DiskFile PyDict) (io : Bool) :
    ManagerState × DiskFile PyDict × List LogLevel :=
  if io then (m, .stored m.cache_data, [.debug]) else (m, disk, [.error])

/-- `APIManager._reset_expired_quotas` (`api_manager.py` lines 114-143):
zero the daily counter and move the daily reset date forward when today is
strictly later than the stored date (logging an info line); independently
zero the hourly counter and move the hourly boundary forward when the
current hour is strictly later than the stored boundary; finally save the
ledger unconditionally.  `today` and `currentHour` stand for `date.today()`
and `datetime.now()` truncated to the hour. -/
def resetExpiredQuotas (q : QuotaData) (today currentHour : Int)
    (disk : DiskFile QuotaData) (io : Bool) :
    QuotaData × DiskFile QuotaData × List LogLevel :=
  let dailyFires := today > q.daily_reset_date
  let q1 := if dailyFires then
      { q with daily_quota_used := 0, daily_reset_date := today } else q
  let hourlyFires := currentHour > q1.hourly_reset_time
  let q2 := if hourlyFires then
      { q1 with hourly_calls := 0, hourly_reset_time := currentHour } else q1
  let resetLogs := (if dailyFires then [LogLevel.info] else [])
      ++ (if hourlyFires then [LogLevel.info] else [])
  let (disk', saveLogs) := saveQuotaData q2 disk io
  (q2, disk', resetLogs ++ saveLogs)

/-- `APIManager.log_api_call` (`api_manager.py` lines 180-204): bump the
session counter, add `quota_cost` to the daily units, one to the hourly
calls and one to the lifetime total, save the ledger immediately (the save
swallows write failures), then emit the regime-appropriate log lines:
for a truthy daily quota limit an info line plus an error at ≥95% or a
warning at ≥80% of the limit (`_log_quota_based_call`, lines 206-238);
otherwise a rate-style info line (`_log_rate_limited_call`, lines 240-247).
The function never raises and the in-memory counters advance even when the
save fails. -/
def logApiCall (m : ManagerState) (disk : DiskFile QuotaData) (io : Bool)
    (quota_cost : Nat) :
    ManagerState × DiskFile QuotaData × List LogLevel :=
  let q := m.quota_data
  let q' : QuotaData :=
    { q with daily_quota_used := q.daily_quota_used + quota_cost
             hourly_calls := q.hourly_calls + 1
             total_api_calls := q.total_api_calls + 1 }
  let m' : ManagerState :=
    { m with session_api_calls := m.session_api_calls + 1, quota_data := q' }
  let (disk', saveLogs) := saveQuotaData q' disk io
  let callLogs : List LogLevel :=
    match m.daily_quota_limit with
    | Option.some L =>
        if L ≠ 0 then
          let quotaPercent : ℚ := (q'.daily_quota_used : ℚ) / (L : ℚ) * 100
          LogLevel.info ::
            (if quotaPercent ≥ 95 then [LogLevel.error]
             else if quotaPercent ≥ 80 then [LogLevel.warning] else [])
        else [LogLevel.info]
    | Option.none => [LogLevel.info]
  (m', disk', saveLogs ++ callLogs)

/-- `APIManager.is_rate_limit_exceeded` (`api_manager.py` lines 249-259):
with a configured daily quota limit, report whether the persistent daily
usage plus the upcoming cost strictly exceeds `limit * stop_threshold`;
otherwise report whether the persistent hourly call count has reached
`hourly_limit * stop_threshold`.  The manager state is returned unchanged:
the method only reads it. -/
def isRateLimitExceeded (m : ManagerState) (upcoming_cost : Nat) :
    Bool × ManagerState :=
  match m.daily_quota_limit with
  | Option.some L =>
      (decide ((m.quota_data.daily_quota_used + upcoming_cost : ℚ) >
        (L : ℚ) * m.stop_threshold), m)
  | Option.none =>
      (decide ((m.quota_data.hourly_calls : ℚ) ≥
        (m.hourly_limit : ℚ) * m.stop_threshold), m)

/-- The dictionary returned by `APIManager.get_usage_summary`
(`api_manager.py` lines 261-290), as a tagged record per regime. -/
inductive UsageSummary where
  | quota (api_name : String) (calls quota_used quota_limit : Nat)
      (usage_percent : ℚ) (status : String)
  | rate (api_name : String) (calls hourly_calls hourly_limit : Nat)
      (rate_percent : ℚ) (status : String)
deriving Repr

/-- `APIManager.get_usage_summary` (`api_manager.py` lines 261-290): in
quota mode report the percentage of the daily limit used with status
"critical" at ≥95, "warning" at ≥80 and "good" below; in rate mode report
the percentage of the hourly limit used with status "warning" at ≥80 and
"good" below.  Division is total rational division; the source would raise
`ZeroDivisionError` on a zero limit, so the theorems below only instantiate
positive limits. -/
def getUsageSummary (m : ManagerState) : UsageSummary :=
  match m.daily_quota_limit with
  | Option.some L =>
      let used := m.quota_data.daily_quota_used
      let usagePercent : ℚ := (used : ℚ) / (L : ℚ) * 100
      .quota m.api_name m.quota_data.total_api_calls used L usagePercent
        (if usagePercent ≥ 95 then "critical"
         else if usagePercent ≥ 80 then "warning" else "good")
  | Option.none =>
      let hc := m.quota_data.hourly_calls
      let ratePercent : ℚ := (hc : ℚ) / (m.hourly_limit : ℚ) * 100
      .rate m.api_name m.quota_data.total_api_calls hc m.hourly_limit
        ratePercent (if ratePercent ≥ 80 then "warning" else "good")

/-- `APIManager.get_from_cache` (`api_manager.py` lines 157-159). -/
def getFromCache (m : ManagerState) (key : String) : Option PyVal :=
  dictGet m.cache_data key

/-- `APIManager.add_to_cache` (`api_manager.py` lines 161-163): in-memory
only, no disk write. -/
def addToCache (m : ManagerState) (key : String) (value : PyVal) :
    ManagerState :=
  { m with cache_data := dictSet m.cache_data key value }

/-- `APIManager.is_in_cache` (`api_manager.py` lines 165-167). -/
def isInCache (m : ManagerState) (key : String) : Bool :=
  dictContains m.cache_data key

/-- Names bound at module level of `api_manager.py` when `__init__` runs:
the imports of lines 8-13 and the two classes the module defines. -/
def apiManagerModuleScope : List String :=
  ["pickle", "os", "logging", "datetime", "date", "config",
   "RateLimitExceeded", "APIManager"]

/-- Names bound in the local scope of `APIManager.__init__` when line 42
executes: the two parameters of the signature at lines 23-26. -/
def apiManagerInitLocalScope : List String := ["self", "api_name"]

/-- A Python exception as observed by callers of the embedded code. -/
inductive PyErr where
  | nameError (name : String)
deriving DecidableEq, Repr

/-- `APIManager.__init__` (`api_manager.py` lines 22-81).  After binding
`self.api_name` (line 39), line 42 evaluates
`api_config["daily_quota_limit"]`.  The name `api_config` is bound nowhere:
it is not a parameter, not assigned earlier in the body, not a module-level
name of `api_manager.py` (see `apiManagerModuleScope`; the config module is
imported as `config`, not `api_config`), and not a Python builtin.  Name
resolution therefore raises `NameError` for every input, before the quota
file or the cache file is read and before `_reset_expired_quotas` runs. -/
def apiManagerInit (_api_name : String) : Except PyErr ManagerState :=
  Except.error (PyErr.nameError "api_config")

/-- Exceptions of the provider-client layer. `rateLimitExceeded` embeds the
`RateLimitExceeded` class of `api_manager.py` lines 16-19; `otherError`
stands for any other exception propagating out of a helper. -/
inductive PyExc where
  | rateLimitExceeded
  | otherError
deriving DecidableEq, Repr

/-- The state of a `BaseAPI` instance (`base_api.py` lines 17-36): the API
name, the optionally bound `APIManager`, and the cost table returned by the
subclass's `_define_api_costs` (already or-defaulted to the empty dict at
line 31). -/
structure BaseAPIState where
  api_name : String
  api_manager : Option ManagerState
  api_costs : List (String × Nat)

/-- Cost lookup `(self.api_costs or \x7b\x7d).get(call_type, 1)` used at
`base_api.py` lines 85 and 105: the table entry, defaulting to 1 when the
call type is absent. -/
def costFor (costs : List (String × Nat)) (call_type : String) : Nat :=
  (dictGet costs call_type).getD 1

/-- `BaseAPI.log_api_call` (`base_api.py` lines 75-91): with a bound
manager, look up the call type's cost (default 1) and delegate to
`APIManager.log_api_call`; without one, only log an info line. -/
def baseLogApiCall (st : BaseAPIState) (disk : DiskFile QuotaData)
    (io : Bool) (call_type : String) :
    BaseAPIState × DiskFile QuotaData × List LogLevel :=
  match st.api_manager with
  | Option.some m =>
      let r := logApiCall m disk io (costFor st.api_costs call_type)
      ({ st with api_manager := Option.some r.1 }, r.2.1, r.2.2)
  | Option.none => (st, disk, [.info])

/-- `BaseAPI.check_quota_limit` (`base_api.py` lines 93-107): with a bound
manager, look up the cost and delegate to
`APIManager.is_rate_limit_exceeded`; without one, return `false`. -/
def checkQuotaLimit (st : BaseAPIState) (call_type : String) : Bool :=
  match st.api_manager with
  | Option.some m => (isRateLimitExceeded m (costFor st.api_costs call_type)).1
  | Option.none => false

/-- `BaseAPI.is_cached` (`base_api.py` lines 109-113). -/
def baseIsCached (st : BaseAPIState) (key : String) : Bool :=
  match st.api_manager with
  | Option.some m => isInCache m key
  | Option.none => false

/-- `BaseAPI.cache_get` (`base_api.py` lines 115-119). -/
def baseCacheGet (st : BaseAPIState) (key : String) : Option PyVal :=
  match st.api_manager with
  | Option.some m => getFromCache m key
  | Option.none => Option.none

/-- `BaseAPI.cache_set` (`base_api.py` lines 121-124): a no-op without a
bound manager. -/
def baseCacheSet (st : BaseAPIState) (key : String) (value : PyVal) :
    BaseAPIState :=
  match st.api_manager with
  | Option.some m => { st with api_manager := Option.some (addToCache m key value) }
  | Option.none => st

/-- Characters matched by Python's `\s` and stripped by `str.strip()`. -/
def pySpace (c : Char) : Bool :=
  c = ' ' || c = '\t' || c = '\n' || c = '\r' || c = '\x0b' || c = '\x0c'

/-- Python `str.strip()` with no argument: remove leading and trailing
whitespace. -/
def pyStrip (s : String) : String :=
  ⟨((s.data.dropWhile pySpace).reverse.dropWhile pySpace).reverse⟩

/-- Python `str.lower()` (the sources only lowercase ASCII names and
URLs). -/
def pyLower (s : String) : String :=
  ⟨s.data.map Char.toLower⟩

/-- The substitution `re.sub(r"\s*\([^)]+\)$", "", term)` of
`WikipediaAPI._clean_search_term` (`wikipedia_api.py` line 49): when the
term ends in `)` and the last `(` is followed by at least one character and
no `)` before the final one, drop that parenthetical together with the
whitespace run before it; otherwise the term is unchanged. -/
def removeTrailingParenGroup (s : String) : String :=
  match s.data.reverse with
  | [] => s
  | last :: revBody =>
      if last = ')' then
        let interiorRev := revBody.takeWhile (fun c => c ≠ '(')
        if interiorRev.length < revBody.length then
          if !interiorRev.isEmpty && interiorRev.all (fun c => c ≠ ')') then
            ⟨((revBody.drop (interiorRev.length + 1)).dropWhile pySpace).reverse⟩
          else s
        else s
      else s

/-- The substitution `re.sub(r":\s*.*$", "", clean)` of
`WikipediaAPI._clean_search_term` (`wikipedia_api.py` line 50): cut the term
at its first `:`. -/
def cutAtColon (s : String) : String :=
  ⟨s.data.takeWhile (fun c => c ≠ ':')⟩

/-- `WikipediaAPI._clean_search_term` (`wikipedia_api.py` lines 47-51). -/
def cleanSearchTerm (term : String) : String :=
  pyStrip (cutAtColon (removeTrailingParenGroup term))

/-- Python `list(dict.fromkeys(xs))`: deduplicate keeping first
occurrences in order (`wikipedia_api.py` line 86). -/
def dedupKeepFirst (xs : List String) : List String :=
  go [] xs
where
  go (seen : List String) : List String → List String
    | [] => []
    | x :: rest =>
        if x ∈ seen then go seen rest else x :: go (x :: seen) rest

/-- The deduplicated search-term list built by
`WikipediaAPI.get_wikipedia_pageviews` (`wikipedia_api.py` lines 72-86)
from the stripped source name and the media type. -/
def wikiSearchTerms (cleanSourceName mediaType : String) : List String :=
  let base := cleanSearchTerm cleanSourceName
  let variations :=
    if mediaType = "TV/Video" then
      [base ++ " (TV program)", base ++ " (TV show)"]
    else if mediaType = "Podcast/Audio" then
      [base ++ " (podcast)", base ++ " podcast"]
    else if mediaType = "Web/Articles" then
      [base ++ " (website)", base ++ ".com"]
    else []
  dedupKeepFirst ([cleanSourceName, base] ++ variations)

/-- Outcome of trying one search term inside the loop of
`WikipediaAPI.get_wikipedia_pageviews` (`wikipedia_api.py` lines 92-145),
abstracting the two HTTP requests of the body:
* `netErr`: `session.get` on the summary URL raises, so the iteration is
  skipped before anything is logged (caught at lines 143-145);
* `noPage`: the summary response arrives (the summary call is logged) but
  is not a standard page, or pageview retrieval was not reached with a
  parseable page title;
* `pageOk title views`: the summary response is a standard page titled
  `title` (summary call logged) and the pageview request returns the daily
  view counts `views` (pageview call logged); an empty `views` list models
  a pageview response with no items, which leaves the result unchanged and
  moves on to the next term. -/
inductive TermOutcome where
  | netErr
  | noPage
  | pageOk (title : String) (views : List Nat)

/-- Python `round` on a float: round half to even. -/
def roundHalfEven (q : ℚ) : Int :=
  let f := ⌊q⌋
  let r := q - f
  if r < 1/2 then f
  else if r > 1/2 then f + 1
  else if Even f then f else f + 1

/-- The negative sentinel result initialized at `wikipedia_api.py` line 69
and cached when no page is found. -/
def wikiSentinel : PyVal :=
  .dict [("has_wikipedia_page", .bool false), ("wikipedia_score", .int 0)]

/-- The positive result built at `wikipedia_api.py` lines 121-137 from the
page title and the daily view counts. -/
def wikiFound (title : String) (views : List Nat) : PyVal :=
  let avgDailyViews : ℚ := (views.sum : ℚ) / (views.length : ℚ)
  .dict [("has_wikipedia_page", .bool true),
         ("wikipedia_title", .str title),
         ("wikipedia_avg_daily_views", .int (roundHalfEven avgDailyViews)),
         ("wikipedia_score", .rat (min 100 (avgDailyViews / 100)))]

/-- The search loop of `WikipediaAPI.get_wikipedia_pageviews`
(`wikipedia_api.py` lines 92-145): walk the terms, logging a `summary`
call whenever a summary response arrives, additionally a `pageviews` call
whenever the summary was a standard page, and stop at the first term whose
pageview items are non-empty, replacing the sentinel result. -/
def wikiLoop (io : Bool) (oracle : String → TermOutcome) :
    List String → BaseAPIState → DiskFile QuotaData → PyVal →
    PyVal × BaseAPIState × DiskFile QuotaData
  | [], st, disk, result => (result, st, disk)
  | t :: rest, st, disk, result =>
      match oracle t with
      | .netErr => wikiLoop io oracle rest st disk result
      | .noPage =>
          let r1 := baseLogApiCall st disk io "summary"
          wikiLoop io oracle rest r1.1 r1.2.1 result
      | .pageOk title views =>
          let r1 := baseLogApiCall st disk io "summary"
          let r2 := baseLogApiCall r1.1 r1.2.1 io "pageviews"
          if views.isEmpty then wikiLoop io oracle rest r2.1 r2.2.1 result
          else (wikiFound title views, r2.1, r2.2.1)

/-- `WikipediaAPI.get_wikipedia_pageviews` (`wikipedia_api.py` lines
53-154): strip the source name, build the cache key
`\x7bstripped name\x7d_\x7bmedia type\x7d`; on a cache hit return the
cached value untouched; otherwise raise `RateLimitExceeded` when the
`search`-cost quota check trips; otherwise run the search loop starting
from the sentinel result and, in the `finally` block, cache whatever result
was finalized before returning it.  `oracle` abstracts the network (see
`TermOutcome`); `disk`/`io` model the quota file and the success of writes
to it. -/
def getWikipediaPageviews (st : BaseAPIState) (disk : DiskFile QuotaData)
    (io : Bool) (oracle : String → TermOutcome)
    (source_name media_type : String) :
    Except PyExc (PyVal × BaseAPIState × DiskFile QuotaData) :=
  let cleanSourceName := pyStrip source_name
  let cacheKey := cleanSourceName ++ "_" ++ media_type
  if baseIsCached st cacheKey then
    Except.ok ((baseCacheGet st cacheKey).getD PyVal.none, st, disk)
  else if checkQuotaLimit st "search" then
    Except.error PyExc.rateLimitExceeded
  else
    let r := wikiLoop io oracle (wikiSearchTerms cleanSourceName media_type)
      st disk wikiSentinel
    Except.ok (r.1, baseCacheSet r.2.1 cacheKey r.1, r.2.2)

/-- Kind of channel lookup chosen by `YouTubeAPI._extract_channel_info`
(`youtube_api.py` lines 57-82). -/
inductive LookupType where
  | byId | byUsername | bySearch
deriving DecidableEq, Repr

/-- Substring capture for one pattern of `_extract_channel_info`: the regex
`marker([^/?]+)` applied with `re.search`, i.e. the first occurrence of the
literal marker that is followed by at least one character other than `/`
and `?`, capturing the run of such characters. -/
def capAfterMarker (marker : List Char) : List Char → Option (List Char)
  | [] => Option.none
  | c :: rest =>
      if marker.isPrefixOf (c :: rest) then
        let cap := ((c :: rest).drop marker.length).takeWhile
          (fun ch => ch ≠ '/' && ch ≠ '?')
        if cap.isEmpty then capAfterMarker marker rest else Option.some cap
      else capAfterMarker marker rest

/-- The literal parts of the URL patterns at `youtube_api.py` lines
63-69, in order. -/
def youtubePatterns : List String :=
  ["youtube.com/channel/", "youtube.com/c/", "youtube.com/user/",
   "youtube.com/@", "youtu.be/"]

/-- The pattern loop of `_extract_channel_info` (`youtube_api.py` lines
71-79): the capture of the first pattern that matches anywhere in the
URL. -/
def firstPatternCapture (url : String) : Option String :=
  go youtubePatterns
where
  go : List String → Option String
    | [] => Option.none
    | p :: rest =>
        match capAfterMarker p.data url.data with
        | Option.some cap => Option.some ⟨cap⟩
        | Option.none => go rest

/-- Python `str.startswith`. -/
def pyStartsWith (s pre : String) : Bool :=
  pre.data.isPrefixOf s.data

/-- The global substitution `re.sub(r"\s*\(.*?\)\s*", "", search_term)` of
`YouTubeAPI._infer_youtube_channel` (`youtube_api.py` line 90): repeatedly
remove the leftmost parenthesized group (non-greedy, up to the nearest `)`)
together with the whitespace runs around it, continuing after the removed
match.  Source names contain no newlines, so `.` matching any
non-newline character is matching any character here.  `go` carries the
remaining length as fuel; every removal consumes at least the two
parentheses, so the fuel never runs out. -/
def removeParenGroups (cs : List Char) : List Char :=
  go cs.length cs
where
  go : Nat → List Char → List Char
    | 0, cs => cs
    | fuel + 1, cs =>
        match cs.findIdx? (fun c => c = '(') with
        | Option.none => cs
        | Option.some i =>
            let after := cs.drop (i + 1)
            match after.findIdx? (fun c => c = ')') with
            | Option.none => cs
            | Option.some j =>
                let beforeTrimmed :=
                  ((cs.take i).reverse.dropWhile pySpace).reverse
                let rest := (after.drop (j + 1)).dropWhile pySpace
                beforeTrimmed ++ go fuel rest

/-- `YouTubeAPI._infer_youtube_channel` (`youtube_api.py` lines 84-94):
drop parenthesized groups, cut at the first `:`, and append
`" official"`. -/
def inferYoutubeChannel (source_name : String) : String :=
  cutAtColon ⟨removeParenGroups source_name.data⟩ ++ " official"

/-- `YouTubeAPI._extract_channel_info` (`youtube_api.py` lines 57-82): on a
falsy URL return no channel info (`None, None`); on a URL matching one of
the five patterns classify the captured identifier as a channel id (leading
`UC` and length 24) or a username; otherwise fall back to a search term
inferred from the source name. -/
def extractChannelInfo (url : Option String) (source_name : String) :
    Option (String × LookupType) :=
  match url with
  | Option.none => Option.none
  | Option.some u =>
      if u = "" then Option.none
      else
        match firstPatternCapture u with
        | Option.some ident =>
            if pyStartsWith ident "UC" && ident.length = 24 then
              Option.some (ident, .byId)
            else Option.some (ident, .byUsername)
        | Option.none =>
            Option.some (inferYoutubeChannel source_name, .bySearch)

/-- Outcome of one of the two metric-gathering stages inside the `try`
block of `YouTubeAPI.get_youtube_metrics` (`youtube_api.py` lines 171-191):
the channel stage (`_get_channel_by_id` / `_get_channel_by_username` /
`_search_channel`, lines 202-241) and the video stage
(`_get_recent_videos_metrics`, lines 325-402).  Each stage issues requests
through `_make_request` (lines 96-148), which logs its calls and can raise
`RateLimitExceeded` either from the pre-call quota check or from a 403
quota response; `_parse_channel_data` can also raise an ordinary exception
on a malformed payload.  `callTypes` are the call types logged before the
stage finishes or raises; `m` is the metrics dict a completed stage
returns. -/
inductive StageOutcome where
  | completes (m : PyDict) (callTypes : List String)
  | raisesLimit (callTypes : List String)
  | raisesOther (callTypes : List String)

/-- Apply the `log_api_call` bookkeeping of a sequence of underlying
requests to the client state. -/
def applyCalls (io : Bool) :
    List String → BaseAPIState → DiskFile QuotaData →
    BaseAPIState × DiskFile QuotaData
  | [], st, disk => (st, disk)
  | t :: rest, st, disk =>
      let r := baseLogApiCall st disk io t
      applyCalls io rest r.1 r.2.1

/-- The state of a `YouTubeAPI` instance (`youtube_api.py` lines 20-33):
the underlying `BaseAPI` state plus the optional API key. -/
structure YouTubeAPIState where
  base : BaseAPIState
  api_key : Option String

/-- The cache key of `YouTubeAPI.get_youtube_metrics` (`youtube_api.py`
line 152): `f"\x7bsource_name\x7d_\x7burl\x7d".lower()`; a `None` URL
prints as `"None"`. -/
def youtubeCacheKey (source_name : String) (url : Option String) : String :=
  pyLower (source_name ++ "_" ++
    (match url with | Option.none => "None" | Option.some u => u))

/-- `YouTubeAPI.get_youtube_metrics` (`youtube_api.py` lines 150-200).
On a cache hit return the cached value untouched.
With a falsy API key, cache and return the empty dict.  Otherwise run the
channel stage and, when it produced a truthy `youtube_channel_id`, the
video stage; a `RateLimitExceeded` escaping either stage is caught and the
metrics gathered so far are returned WITHOUT caching (lines 193-196); any
other exception propagates, also without caching; only a normally
completed lookup reaches the final `cache_set` (line 199).  The result is
the pair of the Python outcome (value or exception) and the post-call
client and quota-file state. -/
def getYoutubeMetrics (yt : YouTubeAPIState) (disk : DiskFile QuotaData)
    (io : Bool) (channelStage videoStage : StageOutcome)
    (source_name : String) (url : Option String) :
    Except PyExc PyVal × YouTubeAPIState × DiskFile QuotaData :=
  let cacheKey := youtubeCacheKey source_name url
  if baseIsCached yt.base cacheKey then
    (Except.ok ((baseCacheGet yt.base cacheKey).getD PyVal.none), yt, disk)
  else
    let hasKey := match yt.api_key with
      | Option.none => false
      | Option.some k => k ≠ ""
    if !hasKey then
      let emptyResult := PyVal.dict []
      (Except.ok emptyResult,
       { yt with base := baseCacheSet yt.base cacheKey emptyResult }, disk)
    else
      match extractChannelInfo url source_name with
      | Option.none =>
          let metrics := PyVal.dict []
          (Except.ok metrics,
           { yt with base := baseCacheSet yt.base cacheKey metrics }, disk)
      | Option.some _ =>
          match channelStage with
          | .raisesLimit calls =>
              let r := applyCalls io calls yt.base disk
              (Except.ok (PyVal.dict []), { yt with base := r.1 }, r.2)
          | .raisesOther calls =>
              let r := applyCalls io calls yt.base disk
              (Except.error PyExc.otherError, { yt with base := r.1 }, r.2)
          | .completes m calls =>
              let r := applyCalls io calls yt.base disk
              if m.isEmpty then
                (Except.ok (PyVal.dict []),
                 { yt with base := baseCacheSet r.1 cacheKey (PyVal.dict []) },
                 r.2)
              else if pyTruthy ((dictGet m "youtube_channel_id").getD .none) then
                match videoStage with
                | .raisesLimit calls2 =>
                    let r2 := applyCalls io calls2 r.1 r.2
                    (Except.ok (PyVal.dict m), { yt with base := r2.1 }, r2.2)
                | .raisesOther calls2 =>
                    let r2 := applyCalls io calls2 r.1 r.2
                    (Except.error PyExc.otherError,
                     { yt with base := r2.1 }, r2.2)
                | .completes vm calls2 =>
                    let r2 := applyCalls io calls2 r.1 r.2
                    let final := if vm.isEmpty then m else dictUpdate m vm
                    (Except.ok (PyVal.dict final),
                     { yt with base := baseCacheSet r2.1 cacheKey (PyVal.dict final) },
                     r2.2)
              else
                (Except.ok (PyVal.dict m),
                 { yt with base := baseCacheSet r.1 cacheKey (PyVal.dict m) },
                 r.2)

/-! Helper lemmas about the embedded operations, shared by the claim
theorems below. -/

theorem dictGet_dictSet_self {α : Type} (d : List (String × α)) (k : String)
    (v : α) : dictGet (dictSet d k v) k = Option.some v := by
  induction d with
  | nil => simp [dictSet, dictGet]
  | cons hd tl ih =>
      obtain ⟨k', v'⟩ := hd
      by_cases h : k' = k <;> simp [dictSet, dictGet, h, ih]

theorem baseLogApiCall_isSome (st : BaseAPIState) (disk : DiskFile QuotaData)
    (io : Bool) (t : String) :
    ((baseLogApiCall st disk io t).1).api_manager.isSome =
      st.api_manager.isSome := by
  cases h : st.api_manager <;> simp [baseLogApiCall, h]

theorem baseIsCached_baseLogApiCall (st : BaseAPIState)
    (disk : DiskFile QuotaData) (io : Bool) (t k : String) :
    baseIsCached ((baseLogApiCall st disk io t).1) k = baseIsCached st k := by
  cases h : st.api_manager <;>
    simp [baseLogApiCall, baseIsCached, h, logApiCall, isInCache]

theorem applyCalls_isSome (io : Bool) (l : List String) (st : BaseAPIState)
    (disk : DiskFile QuotaData) :
    ((applyCalls io l st disk).1).api_manager.isSome =
      st.api_manager.isSome := by
  induction l generalizing st disk with
  | nil => rfl
  | cons t rest ih => rw [applyCalls, ih, baseLogApiCall_isSome]

theorem baseIsCached_applyCalls (io : Bool) (l : List String)
    (st : BaseAPIState) (disk : DiskFile QuotaData) (k : String) :
    baseIsCached ((applyCalls io l st disk).1) k = baseIsCached st k := by
  induction l generalizing st disk with
  | nil => rfl
  | cons t rest ih => rw [applyCalls, ih, baseIsCached_baseLogApiCall]

theorem wikiLoop_isSome (io : Bool) (oracle : String → TermOutcome)
    (ts : List String) (st : BaseAPIState) (disk : DiskFile QuotaData)
    (r : PyVal) :
    (((wikiLoop io oracle ts st disk r).2.1).api_manager).isSome =
      st.api_manager.isSome := by
  induction ts generalizing st disk r with
  | nil => rfl
  | cons t rest ih =>
      rw [wikiLoop]
      cases oracle t with
      | netErr => exact ih st disk r
      | noPage => rw [ih, baseLogApiCall_isSome]
      | pageOk title views =>
          cases h : views.isEmpty with
          | true =>
              simp only [h, if_true]
              rw [ih, baseLogApiCall_isSome, baseLogApiCall_isSome]
          | false =>
              simp only [h, Bool.false_eq_true, if_false]
              rw [baseLogApiCall_isSome, baseLogApiCall_isSome]

theorem wikiLoop_result (io : Bool) (oracle : String → TermOutcome)
    (hOracle : ∀ t title views,
      oracle t = TermOutcome.pageOk title views → views = [])
    (ts : List String) (st : BaseAPIState) (disk : DiskFile QuotaData)
    (r : PyVal) : (wikiLoop io oracle ts st disk r).1 = r := by
  induction ts generalizing st disk r with
  | nil => rfl
  | cons t rest ih =>
      rw [wikiLoop]
      cases h : oracle t with
      | netErr => exact ih _ _ _
      | noPage => exact ih _ _ _
      | pageOk title views =>
          have hv : views = [] := hOracle t title views h
          subst hv
          exact ih _ _ _

theorem baseIsCached_baseCacheSet_self (st : BaseAPIState) (k : String)
    (v : PyVal) (h : st.api_manager.isSome = true) :
    baseIsCached (baseCacheSet st k v) k = true := by
  cases hm : st.api_manager with
  | none => rw [hm] at h; cases h
  | some m =>
      simp [baseCacheSet, baseIsCached, hm, isInCache, dictContains,
        addToCache, dictGet_dictSet_self]

theorem baseCacheGet_baseCacheSet_self (st : BaseAPIState) (k : String)
    (v : PyVal) (h : st.api_manager.isSome = true) :
    baseCacheGet (baseCacheSet st k v) k = Option.some v := by
  cases hm : st.api_manager with
  | none => rw [hm] at h; cases h
  | some m =>
      simp [baseCacheSet, baseCacheGet, hm, getFromCache, addToCache,
        dictGet_dictSet_self]

/-! Concrete fixtures used by the claim theorems: the cost tables declared
by the two provider clients and managers configured with the limits and
thresholds of `config.py` (warning_threshold 0.8, stop_threshold 0.9). -/

/-- `WikipediaAPI._define_api_costs` (`wikipedia_api.py` lines 23-33). -/
def wikipediaCosts : List (String × Nat) :=
  [("summary", 1), ("pageviews", 1), ("search", 1), ("standard", 1)]

/-- `YouTubeAPI._define_api_costs` (`youtube_api.py` lines 35-47). -/
def youtubeCosts : List (String × Nat) :=
  [("search", 100), ("channel_details", 1), ("channel_by_username", 1),
   ("video_details", 1), ("video_list", 1), ("standard", 1)]

/-- A quota-mode manager with daily limit 100 and stop threshold 0.9 whose
ledger shows `used` daily units, for the stop-threshold boundary check.
The source stores `None` as `hourly_limit` for a quota-mode manager; no
claimed code path reads that field in quota mode, so the fixture leaves it
at 0. -/
def quotaBoundaryManager (used : Nat) : ManagerState :=
  { api_name := "YouTube"
    daily_quota_limit := Option.some 100
    hourly_limit := 0
    warning_threshold := 8/10
    stop_threshold := 9/10
    quota_data := ⟨used, 0, 0, 0, 0⟩
    cache_data := []
    session_api_calls := 0 }

/-- A freshly constructed quota-mode manager with daily limit 10000
(`config.api_daily_quotas["youtube"]`) and an all-zero ledger. -/
def freshYoutubeManager : ManagerState :=
  { api_name := "YouTube"
    daily_quota_limit := Option.some 10000
    hourly_limit := 0
    warning_threshold := 8/10
    stop_threshold := 9/10
    quota_data := defaultQuotaData 0 0
    cache_data := []
    session_api_calls := 0 }

/-- A freshly constructed rate-mode manager with hourly limit 200
(`config.api_rate_limits["wikipedia"]`) and an all-zero ledger. -/
def wikiFixtureManager : ManagerState :=
  { api_name := "Wikipedia"
    daily_quota_limit := Option.none
    hourly_limit := 200
    warning_threshold := 8/10
    stop_threshold := 9/10
    quota_data := defaultQuotaData 0 0
    cache_data := []
    session_api_calls := 0 }

/-- A Wikipedia client bound to the fresh rate-mode manager. -/
def wikiFixtureClient : BaseAPIState :=
  { api_name := "Wikipedia"
    api_manager := Option.some wikiFixtureManager
    api_costs := wikipediaCosts }

/-- C1: for every manager, `is_rate_limit_exceeded(upcoming_cost)` with a
non-null daily quota limit is true iff
`daily_quota_used + upcoming_cost > daily_quota_limit * stop_threshold`,
independently of `hourly_calls`; with a null daily quota limit it is true
iff `hourly_calls >= hourly_limit * stop_threshold`, independently of
`daily_quota_used`; it mutates no state; and at daily limit 100 with stop
threshold 0.9 it is false for cost 1 at 89 units used and true for cost 1
at 90 units used. -/
theorem claim_C1 :
    (∀ (n : String) (L hl : Nat) (wt sp : ℚ) (du : Nat) (dr : Int)
        (hc : Nat) (hr : Int) (tot : Nat) (cache : PyDict) (sess cost : Nat),
      ((isRateLimitExceeded
          ⟨n, Option.some L, hl, wt, sp, ⟨du, dr, hc, hr, tot⟩, cache, sess⟩
          cost).1 = true ↔ (du : ℚ) + (cost : ℚ) > (L : ℚ) * sp)
      ∧ (isRateLimitExceeded
          ⟨n, Option.some L, hl, wt, sp, ⟨du, dr, hc, hr, tot⟩, cache, sess⟩
          cost).2 =
        ⟨n, Option.some L, hl, wt, sp, ⟨du, dr, hc, hr, tot⟩, cache, sess⟩)
    ∧
    (∀ (n : String) (hl : Nat) (wt sp : ℚ) (du : Nat) (dr : Int)
        (hc : Nat) (hr : Int) (tot : Nat) (cache : PyDict) (sess cost : Nat),
      ((isRateLimitExceeded
          ⟨n, Option.none, hl, wt, sp, ⟨du, dr, hc, hr, tot⟩, cache, sess⟩
          cost).1 = true ↔ (hc : ℚ) ≥ (hl : ℚ) * sp)
      ∧ (isRateLimitExceeded
          ⟨n, Option.none, hl, wt, sp, ⟨du, dr, hc, hr, tot⟩, cache, sess⟩
          cost).2 =
        ⟨n, Option.none, hl, wt, sp, ⟨du, dr, hc, hr, tot⟩, cache, sess⟩)
    ∧
    (∀ (n : String) (L hl : Nat) (wt sp : ℚ) (du : Nat) (dr : Int)
        (hc hc' : Nat) (hr : Int) (tot : Nat) (cache : PyDict)
        (sess cost : Nat),
      (isRateLimitExceeded
        ⟨n, Option.some L, hl, wt, sp, ⟨du, dr, hc, hr, tot⟩, cache, sess⟩
        cost).1 =
      (isRateLimitExceeded
        ⟨n, Option.some L, hl, wt, sp, ⟨du, dr, hc', hr, tot⟩, cache, sess⟩
        cost).1)
    ∧
    (∀ (n : String) (hl : Nat) (wt sp : ℚ) (du du' : Nat) (dr : Int)
        (hc : Nat) (hr : Int) (tot : Nat) (cache : PyDict) (sess cost : Nat),
      (isRateLimitExceeded
        ⟨n, Option.none, hl, wt, sp, ⟨du, dr, hc, hr, tot⟩, cache, sess⟩
        cost).1 =
      (isRateLimitExceeded
        ⟨n, Option.none, hl, wt, sp, ⟨du', dr, hc, hr, tot⟩, cache, sess⟩
        cost).1)
    ∧
    (isRateLimitExceeded (quotaBoundaryManager 89) 1).1 = false
    ∧
    (isRateLimitExceeded (quotaBoundaryManager 90) 1).1 = true := by
  refine ⟨?_, ?_, ?_, ?_, ?_, ?_⟩
  · intro n L hl wt sp du dr hc hr tot cache sess cost
    exact ⟨by simp [isRateLimitExceeded], rfl⟩
  · intro n hl wt sp du dr hc hr tot cache sess cost
    exact ⟨by simp [isRateLimitExceeded], rfl⟩
  · intro n L hl wt sp du dr hc hc' hr tot cache sess cost
    rfl
  · intro n hl wt sp du du' dr hc hr tot cache sess cost
    rfl
  · simp only [isRateLimitExceeded, quotaBoundaryManager,
      decide_eq_false_iff_not]
    norm_num
  · simp only [isRateLimitExceeded, quotaBoundaryManager, decide_eq_true_eq]
    norm_num

/-- C2: a recorded call through `BaseAPI.log_api_call` with a bound manager
uses the cost-table entry of the call type (1 when absent), increments
`daily_quota_used` by exactly that cost, `hourly_calls` by 1 and
`total_api_calls` by 1, and persists the updated ledger; when the
persistence write fails the quota file is untouched, an error is logged and
the in-memory counters have still advanced.  The embedding is a total
function: the call raises no exception in either case. -/
theorem claim_C2 : ∀ (n : String) (costs : List (String × Nat))
    (m : ManagerState) (disk : DiskFile QuotaData) (t : String),
    let c := (dictGet costs t).getD 1
    let q' : QuotaData := { m.quota_data with
      daily_quota_used := m.quota_data.daily_quota_used + c
      hourly_calls := m.quota_data.hourly_calls + 1
      total_api_calls := m.quota_data.total_api_calls + 1 }
    let m' : ManagerState := { m with
      session_api_calls := m.session_api_calls + 1, quota_data := q' }
    (baseLogApiCall ⟨n, Option.some m, costs⟩ disk true t).1 =
      ⟨n, Option.some m', costs⟩
    ∧ (baseLogApiCall ⟨n, Option.some m, costs⟩ disk true t).2.1 =
      DiskFile.stored q'
    ∧ (baseLogApiCall ⟨n, Option.some m, costs⟩ disk false t).1 =
      ⟨n, Option.some m', costs⟩
    ∧ (baseLogApiCall ⟨n, Option.some m, costs⟩ disk false t).2.1 = disk
    ∧ LogLevel.error ∈
      (baseLogApiCall ⟨n, Option.some m, costs⟩ disk false t).2.2 := by
  intro n costs m disk t
  refine ⟨rfl, rfl, rfl, rfl, ?_⟩
  simp [baseLogApiCall, logApiCall, saveQuotaData, costFor]

/-- C3: reconciliation zeroes `daily_quota_used` and moves
`daily_reset_date` to today exactly when the stored date is strictly
earlier than today, independently zeroes `hourly_calls` and moves the
hourly boundary exactly when the stored boundary is strictly earlier than
the current hour (so both resets may fire together and neither fires on
equality), and never changes `total_api_calls`. -/
theorem claim_C3 : ∀ (q : QuotaData) (today currentHour : Int)
    (disk : DiskFile QuotaData) (io : Bool),
    let r := resetExpiredQuotas q today currentHour disk io
    r.1.daily_quota_used =
      (if today > q.daily_reset_date then 0 else q.daily_quota_used)
    ∧ r.1.daily_reset_date =
      (if today > q.daily_reset_date then today else q.daily_reset_date)
    ∧ r.1.hourly_calls =
      (if currentHour > q.hourly_reset_time then 0 else q.hourly_calls)
    ∧ r.1.hourly_reset_time =
      (if currentHour > q.hourly_reset_time then currentHour
       else q.hourly_reset_time)
    ∧ r.1.total_api_calls = q.total_api_calls := by
  intro q today currentHour disk io
  by_cases h1 : today > q.daily_reset_date <;>
    by_cases h2 : currentHour > q.hourly_reset_time <;>
      simp [resetExpiredQuotas, h1, h2]

/-- C7: a failing cache flush logs an error, raises nothing (the embedding
is total and returns the triple below in the failure case), leaves the
durable cache file as it was and leaves the in-memory manager state, in
particular its cache mapping, exactly as it was before the call. -/
theorem claim_C7 : ∀ (m : ManagerState) (disk : DiskFile PyDict),
    saveCacheToDisk m disk false = (m, disk, [LogLevel.error])
    ∧ (saveCacheToDisk m disk false).1.cache_data = m.cache_data :=
  fun _ _ => ⟨rfl, rfl⟩

/-- C8: a client with no bound manager reports every key uncached, returns
`None` from `cache_get`, leaves its state unchanged on `cache_set`, and
reports the quota as never exceeded for every call type. -/
theorem claim_C8 : ∀ (n : String) (costs : List (String × Nat))
    (k : String) (v : PyVal) (t : String),
    baseIsCached ⟨n, Option.none, costs⟩ k = false
    ∧ baseCacheGet ⟨n, Option.none, costs⟩ k = Option.none
    ∧ baseCacheSet ⟨n, Option.none, costs⟩ k v = ⟨n, Option.none, costs⟩
    ∧ checkQuotaLimit ⟨n, Option.none, costs⟩ t = false :=
  fun _ _ _ _ _ => ⟨rfl, rfl, rfl, rfl⟩

/-- C4 (construction defect): the flush/reconstruct round-trip cannot be
exercised because constructing an `APIManager` raises for every input:
line 42 of `api_manager.py` reads `api_config["daily_quota_limit"]`, and
the name `api_config` is neither a local of `__init__` nor a module-level
name (nor a builtin), so name resolution raises `NameError` before any
durable state is read.  The concrete failing call is `APIManager
("Wikipedia")`, issued by `influence_collector.py` line 78. -/
theorem claim_C4 :
    apiManagerInit "Wikipedia" = Except.error (PyErr.nameError "api_config")
    ∧ "api_config" ∉ apiManagerInitLocalScope ++ apiManagerModuleScope
    ∧ ∀ a : String,
        apiManagerInit a = Except.error (PyErr.nameError "api_config") :=
  ⟨rfl, by decide, fun _ => rfl⟩

/-- C5: for a quota-mode manager with a positive daily limit the usage
summary reports `usage_percent = daily_quota_used / limit * 100` with
status "critical" at ≥95, "warning" in [80, 95) and "good" below 80; for a
rate-mode manager with a positive hourly limit it reports
`rate_percent = hourly_calls / hourly_limit * 100` with status "warning"
at ≥80 and "good" below.  Concretely, after one recorded call of cost 9500
against limit 10000 on a fresh ledger, the summary is exactly 95.0 percent
with status "critical", and `is_rate_limit_exceeded(1)` is then true at
stop threshold 0.9.  Positive limits are written `L+1`/`hl+1`; at limit 0
the source would raise `ZeroDivisionError`, which the total rational
division of the embedding does not model. -/
theorem claim_C5 :
    (∀ (n : String) (L hl : Nat) (wt sp : ℚ) (q : QuotaData)
        (cache : PyDict) (sess : Nat),
      getUsageSummary ⟨n, Option.some (L + 1), hl, wt, sp, q, cache, sess⟩ =
        UsageSummary.quota n q.total_api_calls q.daily_quota_used (L + 1)
          ((q.daily_quota_used : ℚ) / ((L + 1 : Nat) : ℚ) * 100)
          (if (q.daily_quota_used : ℚ) / ((L + 1 : Nat) : ℚ) * 100 ≥ 95 then
            "critical"
           else if (q.daily_quota_used : ℚ) / ((L + 1 : Nat) : ℚ) * 100 ≥ 80
           then "warning" else "good"))
    ∧
    (∀ (n : String) (hl : Nat) (wt sp : ℚ) (q : QuotaData)
        (cache : PyDict) (sess : Nat),
      getUsageSummary ⟨n, Option.none, hl + 1, wt, sp, q, cache, sess⟩ =
        UsageSummary.rate n q.total_api_calls q.hourly_calls (hl + 1)
          ((q.hourly_calls : ℚ) / ((hl + 1 : Nat) : ℚ) * 100)
          (if (q.hourly_calls : ℚ) / ((hl + 1 : Nat) : ℚ) * 100 ≥ 80 then
            "warning" else "good"))
    ∧
    getUsageSummary
        ((logApiCall freshYoutubeManager DiskFile.missing true 9500).1) =
      UsageSummary.quota "YouTube" 1 9500 10000 95 "critical"
    ∧
    (isRateLimitExceeded
        ((logApiCall freshYoutubeManager DiskFile.missing true 9500).1)
        1).1 = true := by
  refine ⟨fun n L hl wt sp q cache sess => rfl,
          fun n hl wt sp q cache sess => rfl, ?_, ?_⟩
  · have h95 : ((0 + 9500 : Nat) : ℚ) / ((10000 : Nat) : ℚ) * 100 = 95 := by
      norm_num
    simp only [logApiCall, freshYoutubeManager, defaultQuotaData,
      getUsageSummary, saveQuotaData]
    norm_num
  · simp only [logApiCall, freshYoutubeManager, defaultQuotaData,
      isRateLimitExceeded, saveQuotaData, decide_eq_true_eq]
    norm_num

/-- C6 (counterexample): on a missing cache file `_load_cache_from_disk`
returns the empty mapping but logs nothing — the `os.path.exists` guard
falls through without reaching the `logging.warning` call, which only a
raised exception reaches — and likewise `_load_quota_data` returns the
default ledger silently; the claim asserts a warning is logged in the
missing-file case. -/
theorem claim_C6_counterexample :
    (loadCacheFromDisk DiskFile.missing).1 = []
    ∧ (loadCacheFromDisk DiskFile.missing).2 = []
    ∧ (loadQuotaData DiskFile.missing 0 0).1 = defaultQuotaData 0 0
    ∧ (loadQuotaData DiskFile.missing 0 0).2 = []
    ∧ LogLevel.warning ∉ (loadCacheFromDisk DiskFile.missing).2 :=
  ⟨rfl, rfl, rfl, rfl, by simp [loadCacheFromDisk]⟩

/-- C6 (amended): cache load and ledger load never raise (the embeddings
are total); a missing cache file yields the empty mapping silently, a
deserialization failure yields the empty mapping and logs a warning; a
missing or corrupt quota file yields the default ledger — all counters
zero, the daily reset date set to today, the hourly boundary set to the
current hour — logging a warning only in the corrupt case. -/
theorem claim_C6 : ∀ (today currentHour : Int),
    loadCacheFromDisk DiskFile.missing = ([], [])
    ∧ loadCacheFromDisk DiskFile.corrupt = ([], [LogLevel.warning])
    ∧ loadQuotaData DiskFile.missing today currentHour =
        (defaultQuotaData today currentHour, [])
    ∧ loadQuotaData DiskFile.corrupt today currentHour =
        (defaultQuotaData today currentHour, [LogLevel.warning])
    ∧ (defaultQuotaData today currentHour).daily_quota_used = 0
    ∧ (defaultQuotaData today currentHour).hourly_calls = 0
    ∧ (defaultQuotaData today currentHour).total_api_calls = 0
    ∧ (defaultQuotaData today currentHour).daily_reset_date = today
    ∧ (defaultQuotaData today currentHour).hourly_reset_time = currentHour :=
  fun _ _ => ⟨rfl, rfl, rfl, rfl, rfl, rfl, rfl, rfl, rfl⟩

/-- The fresh Wikipedia client passes the `search` quota check: zero calls
this hour against a stop line of 200 * 0.9 = 180. -/
theorem wikiFixtureClient_quota_ok :
    checkQuotaLimit wikiFixtureClient "search" = false := by
  simp only [checkQuotaLimit, wikiFixtureClient, wikiFixtureManager,
    isRateLimitExceeded, costFor, wikipediaCosts, defaultQuotaData, dictGet,
    decide_eq_false_iff_not]
  norm_num

/-- C9: `get_wikipedia_pageviews` under a bound manager, with the cache key
`stripped-source-name ++ "_" ++ media-type`: on a cache hit the cached
value is returned with the client and quota file untouched (no quota
check, no call recorded); on a cache miss that passes the quota check the
method returns normally with some result `r`, the key is cached afterwards
with exactly `r`, a re-run for the same key returns `r` without touching
the state again, and when the network never yields a page with pageview
items the finalized result is the negative sentinel
`\x7bhas_wikipedia_page: false, wikipedia_score: 0\x7d`. -/
theorem claim_C9 : ∀ (st : BaseAPIState) (disk : DiskFile QuotaData)
    (io : Bool) (oracle : String → TermOutcome)
    (source_name media_type : String),
    (baseIsCached st (pyStrip source_name ++ "_" ++ media_type) = true →
      getWikipediaPageviews st disk io oracle source_name media_type =
        Except.ok
          ((baseCacheGet st
              (pyStrip source_name ++ "_" ++ media_type)).getD PyVal.none,
            st, disk))
    ∧
    (st.api_manager.isSome = true →
     baseIsCached st (pyStrip source_name ++ "_" ++ media_type) = false →
     checkQuotaLimit st "search" = false →
     ∃ r st' disk',
       getWikipediaPageviews st disk io oracle source_name media_type =
         Except.ok (r, st', disk')
       ∧ baseIsCached st' (pyStrip source_name ++ "_" ++ media_type) = true
       ∧ baseCacheGet st' (pyStrip source_name ++ "_" ++ media_type) =
           Option.some r
       ∧ getWikipediaPageviews st' disk' io oracle source_name media_type =
           Except.ok (r, st', disk')
       ∧ ((∀ t title views,
             oracle t = TermOutcome.pageOk title views → views = []) →
           r = wikiSentinel)) := by
  intro st disk io oracle sn mt
  constructor
  · intro hHit
    simp [getWikipediaPageviews, hHit]
  · intro hSome hMiss hQuota
    refine ⟨(wikiLoop io oracle (wikiSearchTerms (pyStrip sn) mt)
              st disk wikiSentinel).1,
            baseCacheSet
              (wikiLoop io oracle (wikiSearchTerms (pyStrip sn) mt)
                st disk wikiSentinel).2.1
              (pyStrip sn ++ "_" ++ mt)
              (wikiLoop io oracle (wikiSearchTerms (pyStrip sn) mt)
                st disk wikiSentinel).1,
            (wikiLoop io oracle (wikiSearchTerms (pyStrip sn) mt)
              st disk wikiSentinel).2.2,
            ?_, ?_, ?_, ?_, ?_⟩
    · simp [getWikipediaPageviews, hMiss, hQuota]
    · exact baseIsCached_baseCacheSet_self _ _ _
        (by rw [wikiLoop_isSome]; exact hSome)
    · exact baseCacheGet_baseCacheSet_self _ _ _
        (by rw [wikiLoop_isSome]; exact hSome)
    · have hCached := baseIsCached_baseCacheSet_self
        (wikiLoop io oracle (wikiSearchTerms (pyStrip sn) mt)
          st disk wikiSentinel).2.1
        (pyStrip sn ++ "_" ++ mt)
        (wikiLoop io oracle (wikiSearchTerms (pyStrip sn) mt)
          st disk wikiSentinel).1
        (by rw [wikiLoop_isSome]; exact hSome)
      have hGet := baseCacheGet_baseCacheSet_self
        (wikiLoop io oracle (wikiSearchTerms (pyStrip sn) mt)
          st disk wikiSentinel).2.1
        (pyStrip sn ++ "_" ++ mt)
        (wikiLoop io oracle (wikiSearchTerms (pyStrip sn) mt)
          st disk wikiSentinel).1
        (by rw [wikiLoop_isSome]; exact hSome)
      simp [getWikipediaPageviews, hCached, hGet]
    · intro hOracle
      exact wikiLoop_result io oracle hOracle _ _ _ _

/-- Witness for C9: the fresh Wikipedia client, an always-pageless network,
the source name "CNN" and media type "TV/Video".  All three hypotheses of
the cache-miss branch hold concretely and the branch is applied to them. -/
theorem claim_C9_witness :
    wikiFixtureClient.api_manager.isSome = true
    ∧ baseIsCached wikiFixtureClient
        (pyStrip "CNN" ++ "_" ++ "TV/Video") = false
    ∧ checkQuotaLimit wikiFixtureClient "search" = false
    ∧ ∃ r st' disk',
        getWikipediaPageviews wikiFixtureClient DiskFile.missing true
            (fun _ : String => TermOutcome.noPage) "CNN" "TV/Video" =
          Except.ok (r, st', disk')
        ∧ baseIsCached st' (pyStrip "CNN" ++ "_" ++ "TV/Video") = true
        ∧ baseCacheGet st' (pyStrip "CNN" ++ "_" ++ "TV/Video") =
            Option.some r
        ∧ getWikipediaPageviews st' disk' true
            (fun _ : String => TermOutcome.noPage) "CNN" "TV/Video" =
          Except.ok (r, st', disk')
        ∧ ((∀ (_t title : String) (views : List Nat),
              TermOutcome.noPage = TermOutcome.pageOk title views
                → views = []) →
            r = wikiSentinel) :=
  ⟨rfl, rfl, wikiFixtureClient_quota_ok,
   (claim_C9 wikiFixtureClient DiskFile.missing true
      (fun _ : String => TermOutcome.noPage) "CNN" "TV/Video").2
     rfl rfl wikiFixtureClient_quota_ok⟩

/-- C10: `get_youtube_metrics` on an uncached key under a bound manager:
when `RateLimitExceeded` escapes an underlying request — in the channel
stage or in the video stage — the method catches it and returns the
metrics gathered so far (the empty dict, respectively the channel metrics)
WITHOUT writing the key to the cache, so a later run retries it; an
ordinary exception propagates, also without caching; a normally completed
lookup caches exactly the returned metrics, and the no-API-key path caches
the empty result. -/
theorem claim_C10 : ∀ (yt : YouTubeAPIState) (disk : DiskFile QuotaData)
    (io : Bool) (source_name : String) (url : Option String),
    yt.base.api_manager.isSome = true →
    baseIsCached yt.base (youtubeCacheKey source_name url) = false →
    ((yt.api_key = Option.none →
      ∀ chS vdS : StageOutcome,
        (getYoutubeMetrics yt disk io chS vdS source_name url).1 =
          Except.ok (PyVal.dict [])
        ∧ baseIsCached
            (getYoutubeMetrics yt disk io chS vdS source_name url).2.1.base
            (youtubeCacheKey source_name url) = true
        ∧ baseCacheGet
            (getYoutubeMetrics yt disk io chS vdS source_name url).2.1.base
            (youtubeCacheKey source_name url) =
          Option.some (PyVal.dict []))
    ∧
    (∀ (kk : String) (info : String × LookupType),
      yt.api_key = Option.some kk → kk ≠ "" →
      extractChannelInfo url source_name = Option.some info →
      ((∀ (calls : List String) (vdS : StageOutcome),
          (getYoutubeMetrics yt disk io (StageOutcome.raisesLimit calls) vdS
            source_name url).1 = Except.ok (PyVal.dict [])
          ∧ baseIsCached
              (getYoutubeMetrics yt disk io (StageOutcome.raisesLimit calls)
                vdS source_name url).2.1.base
              (youtubeCacheKey source_name url) = false)
      ∧
      (∀ (calls : List String) (vdS : StageOutcome),
          (getYoutubeMetrics yt disk io (StageOutcome.raisesOther calls) vdS
            source_name url).1 = Except.error PyExc.otherError
          ∧ baseIsCached
              (getYoutubeMetrics yt disk io (StageOutcome.raisesOther calls)
                vdS source_name url).2.1.base
              (youtubeCacheKey source_name url) = false)
      ∧
      (∀ (m : PyDict) (calls calls2 : List String),
          m.isEmpty = false →
          pyTruthy ((dictGet m "youtube_channel_id").getD PyVal.none) =
            true →
          (getYoutubeMetrics yt disk io (StageOutcome.completes m calls)
            (StageOutcome.raisesLimit calls2) source_name url).1 =
            Except.ok (PyVal.dict m)
          ∧ baseIsCached
              (getYoutubeMetrics yt disk io (StageOutcome.completes m calls)
                (StageOutcome.raisesLimit calls2) source_name url).2.1.base
              (youtubeCacheKey source_name url) = false)
      ∧
      (∀ (m vm : PyDict) (calls calls2 : List String),
          m.isEmpty = false →
          pyTruthy ((dictGet m "youtube_channel_id").getD PyVal.none) =
            true →
          (getYoutubeMetrics yt disk io (StageOutcome.completes m calls)
            (StageOutcome.completes vm calls2) source_name url).1 =
            Except.ok
              (PyVal.dict (if vm.isEmpty then m else dictUpdate m vm))
          ∧ baseIsCached
              (getYoutubeMetrics yt disk io (StageOutcome.completes m calls)
                (StageOutcome.completes vm calls2) source_name url).2.1.base
              (youtubeCacheKey source_name url) = true
          ∧ baseCacheGet
              (getYoutubeMetrics yt disk io (StageOutcome.completes m calls)
                (StageOutcome.completes vm calls2) source_name url).2.1.base
              (youtubeCacheKey source_name url) =
            Option.some
              (PyVal.dict (if vm.isEmpty then m else dictUpdate m vm)))))) := by
  intro yt disk io sn url hSome hMiss
  constructor
  · intro hNoKey chS vdS
    have h1 := baseIsCached_baseCacheSet_self yt.base (youtubeCacheKey sn url)
      (PyVal.dict []) hSome
    have h2 := baseCacheGet_baseCacheSet_self yt.base (youtubeCacheKey sn url)
      (PyVal.dict []) hSome
    refine ⟨?_, ?_, ?_⟩ <;> simp [getYoutubeMetrics, hMiss, hNoKey, h1, h2]
  · intro kk info hKey hne hInfo
    have hkb : (decide ¬(kk = "")) = true := decide_eq_true hne
    refine ⟨?_, ?_, ?_, ?_⟩
    · intro calls vdS
      have hc := baseIsCached_applyCalls io calls yt.base disk
        (youtubeCacheKey sn url)
      refine ⟨?_, ?_⟩ <;>
        simp [getYoutubeMetrics, hMiss, hKey, hkb, hInfo, hc, hMiss]
    · intro calls vdS
      have hc := baseIsCached_applyCalls io calls yt.base disk
        (youtubeCacheKey sn url)
      refine ⟨?_, ?_⟩ <;>
        simp [getYoutubeMetrics, hMiss, hKey, hkb, hInfo, hc, hMiss]
    · intro m calls calls2 hm hid
      have hc := baseIsCached_applyCalls io calls yt.base disk
        (youtubeCacheKey sn url)
      have hc2 := baseIsCached_applyCalls io calls2
        ((applyCalls io calls yt.base disk).1)
        ((applyCalls io calls yt.base disk).2) (youtubeCacheKey sn url)
      refine ⟨?_, ?_⟩ <;>
        simp [getYoutubeMetrics, hMiss, hKey, hkb, hInfo, hm, hid, hc, hc2,
          hMiss]
    · intro m vm calls calls2 hm hid
      have hSome1 : ((applyCalls io calls yt.base disk).1).api_manager.isSome
          = true := by rw [applyCalls_isSome]; exact hSome
      have hSome2 : ((applyCalls io calls2 ((applyCalls io calls yt.base
          disk).1) ((applyCalls io calls yt.base disk).2)).1).api_manager.isSome
          = true := by rw [applyCalls_isSome]; exact hSome1
      have h1 := baseIsCached_baseCacheSet_self
        ((applyCalls io calls2 ((applyCalls io calls yt.base disk).1)
          ((applyCalls io calls yt.base disk).2)).1)
        (youtubeCacheKey sn url)
        (PyVal.dict (if vm.isEmpty then m else dictUpdate m vm)) hSome2
      have h2 := baseCacheGet_baseCacheSet_self
        ((applyCalls io calls2 ((applyCalls io calls yt.base disk).1)
          ((applyCalls io calls yt.base disk).2)).1)
        (youtubeCacheKey sn url)
        (PyVal.dict (if vm.isEmpty then m else dictUpdate m vm)) hSome2
      refine ⟨?_, ?_, ?_⟩ <;>
        simp [getYoutubeMetrics, hMiss, hKey, hkb, hInfo, hm, hid, h1, h2]

/-- A YouTube client bound to the fresh quota-mode manager, with an API key
configured. -/
def ytFixtureClient : YouTubeAPIState :=
  { base := { api_name := "YouTube"
              api_manager := Option.some freshYoutubeManager
              api_costs := youtubeCosts }
    api_key := Option.some "key123" }

/-- A channel URL matching the `youtube.com/channel/` pattern with a
24-character `UC` channel id. -/
def ytFixtureUrl : String :=
  "https://www.youtube.com/channel/UC0123456789012345678901"

/-- Channel metrics as `_parse_channel_data` returns them, with a truthy
channel id. -/
def ytChannelMetrics : PyDict :=
  [("youtube_channel_id", PyVal.str "UC0123456789012345678901"),
   ("youtube_subscribers", PyVal.int 1000000)]

/-- Recent-video metrics as `_get_recent_videos_metrics` returns them. -/
def ytVideoMetrics : PyDict :=
  [("youtube_recent_videos_count", PyVal.int 10)]

/-- Witness for C10: the keyed YouTube client on an uncached key, with a
channel stage returning concrete channel metrics and a completing video
stage; every hypothesis of the normal-completion branch holds concretely
and the branch is applied to them. -/
theorem claim_C10_witness :
    ytFixtureClient.base.api_manager.isSome = true
    ∧ baseIsCached ytFixtureClient.base
        (youtubeCacheKey "CNN" (Option.some ytFixtureUrl)) = false
    ∧ ytFixtureClient.api_key = Option.some "key123"
    ∧ ("key123" : String) ≠ ""
    ∧ extractChannelInfo (Option.some ytFixtureUrl) "CNN" =
        Option.some ("UC0123456789012345678901", LookupType.byId)
    ∧ ytChannelMetrics.isEmpty = false
    ∧ pyTruthy ((dictGet ytChannelMetrics "youtube_channel_id").getD
        PyVal.none) = true
    ∧ ((getYoutubeMetrics ytFixtureClient DiskFile.missing true
          (StageOutcome.completes ytChannelMetrics ["channel_details"])
          (StageOutcome.completes ytVideoMetrics ["video_list"]) "CNN"
          (Option.some ytFixtureUrl)).1 =
        Except.ok (PyVal.dict (if ytVideoMetrics.isEmpty then
          ytChannelMetrics else dictUpdate ytChannelMetrics ytVideoMetrics))
      ∧ baseIsCached
          (getYoutubeMetrics ytFixtureClient DiskFile.missing true
            (StageOutcome.completes ytChannelMetrics ["channel_details"])
            (StageOutcome.completes ytVideoMetrics ["video_list"]) "CNN"
            (Option.some ytFixtureUrl)).2.1.base
          (youtubeCacheKey "CNN" (Option.some ytFixtureUrl)) = true
      ∧ baseCacheGet
          (getYoutubeMetrics ytFixtureClient DiskFile.missing true
            (StageOutcome.completes ytChannelMetrics ["channel_details"])
            (StageOutcome.completes ytVideoMetrics ["video_list"]) "CNN"
            (Option.some ytFixtureUrl)).2.1.base
          (youtubeCacheKey "CNN" (Option.some ytFixtureUrl)) =
        Option.some (PyVal.dict (if ytVideoMetrics.isEmpty then
          ytChannelMetrics else dictUpdate ytChannelMetrics
          ytVideoMetrics))) :=
  ⟨rfl, rfl, rfl, by decide, rfl, rfl, rfl,
   (((claim_C10 ytFixtureClient DiskFile.missing true "CNN"
        (Option.some ytFixtureUrl) rfl rfl).2 "key123"
        ("UC0123456789012345678901", LookupType.byId) rfl (by decide)
        rfl).2.2.2) ytChannelMetrics ytVideoMetrics ["channel_details"]
     ["video_list"] rfl rfl⟩
